import Mathlib

/-!
Verification of the CoT-Decoding pipeline (`src/CoT-Decoding-pipe.py`).

The single source file implements an Open WebUI "pipeline" class whose
entry point `pipe` (a) checks configuration, (b) finds the last user
message, (c) asks an Ollama-style HTTP chat endpoint for `k` candidate
completions (`get_top_k_responses`), (d) asks the same endpoint once more
to arbitrate between the candidates
(`select_best_response_with_model`), and (e) formats the returned text.

Shallow embedding conventions:
  * A Python `{'role': ..., 'content': ...}` dict is the structure
    `Message`; a candidate dict `{'content': ...}` is `Candidate`.
  * The HTTP world (`requests.post`) is an oracle
    `Endpoint : Nat → Request → CallOutcome`: the n-th outbound call of
    the process, carrying the request's model and message list, yields
    either a transport-level exception (`requests.post` raising) or an
    `HttpResponse` with a status code, a flag telling whether
    `response.json()` parses, the value of
    `data.get("message", {}).get("content", "")`, and `response.text`.
    Sampling options (`seed`, `temperature`, `max_tokens`) are passed
    through to the endpoint verbatim by the source and never influence
    its control flow, so they are absorbed into the oracle and not
    carried in `Request`.
  * Each embedded function returns its value inside
    `Except Unit _` — `Except.error ()` models an uncaught Python
    exception propagating out of the function — paired with the updated
    call counter, so that "how many outbound calls were made" is
    observable.
  * Python's in-place mutation of lists is modelled twice: the main
    embedding uses value semantics (a `.copy()` is just a second
    binding), and a second, store-instrumented embedding (`Store`,
    `pipeSt`, ...) makes every list reference an explicit cell so that
    the frame property "the caller's `messages` list is never mutated"
    is a real statement.
-/

namespace CoTPipe

/-- A chat message dict `{'role': r, 'content': c}`. -/
structure Message where
  role : String
  content : String
deriving DecidableEq, Repr

/-- A candidate response dict `{'content': c}` as appended by
`get_top_k_responses`. -/
structure Candidate where
  content : String
deriving DecidableEq, Repr

/-- The observable part of a `requests.Response`: the status code,
whether `response.json()` parses, the extracted
`data.get("message", {}).get("content", "")` field (meaningful only when
`jsonOk` is true), and `response.text` (used by the source only in log
lines). -/
structure HttpResponse where
  status : Nat
  jsonOk : Bool
  content : String
  text : String
deriving DecidableEq, Repr

/-- Outcome of one `requests.post` call: either the call raises at the
transport level, or it returns an HTTP response. -/
inductive CallOutcome where
  | transportError
  | response (r : HttpResponse)
deriving DecidableEq, Repr

/-- The request payload observable by the endpoint: the model name and
the `messages` list sent in the JSON body. -/
structure Request where
  model : String
  messages : List Message
deriving DecidableEq, Repr

/-- The HTTP world: outcome of the n-th outbound call as a function of
the request sent. -/
abbrev Endpoint := Nat → Request → CallOutcome

/-- The configuration fields of `Valves` that influence control flow.
`ollama_api_url`, `temperature`, `max_tokens`, `evaluation_temperature`
and `evaluation_max_tokens` are passed through to the endpoint verbatim
and are absorbed into the `Endpoint` oracle. -/
structure Valves where
  model : String
  k : Nat
  debug : Bool
deriving DecidableEq, Repr

/-- Python `a or b` on strings: `a` when truthy (non-empty), else `b`.
Used for `self.valves.model or model_id`. -/
def pyOr (a b : String) : String :=
  if a = "" then b else a

/-- Python `f"{x}"` on an `Optional[str]`: `None` prints as `"None"`. -/
def pyStrOfOpt : Option String → String
  | some s => s
  | none => "None"

/-- Python `str.strip()`: remove leading and trailing whitespace. -/
def pyStrip (s : String) : String :=
  String.mk (((s.data.dropWhile Char.isWhitespace).reverse.dropWhile Char.isWhitespace).reverse)

/-- The loop
`while messages_for_generation and messages_for_generation[-1]['role'] == 'assistant': messages_for_generation.pop()`
(lines 129-130 and 162-163): pop from the tail while the last message
has role `assistant`. -/
def stripTrailingAssistant (ms : List Message) : List Message :=
  if h : ms = [] then ms
  else if (ms.getLast h).role = "assistant" then
    stripTrailingAssistant ms.dropLast
  else ms
termination_by ms.length
decreasing_by
  have hpos : 0 < ms.length := List.length_pos.mpr h
  simp only [List.length_dropLast]
  omega

/-- `get_last_user_message` (lines 114-118): scan the messages from the
end and return the first one with role `user`, else `None`. -/
def get_last_user_message (messages : List Message) : Option Message :=
  messages.reverse.find? (fun m => m.role == "user")

/-- The fixed first line of the arbitration message (line 166). -/
def possibleResponsesHeader : String :=
  "I have considered the following possible responses:\n"

/-- The fixed instruction appended after the enumerated candidates
(lines 169-172). -/
def possibleResponsesInstruction : String :=
  "\nPlease provide the best possible response to the last user message based on the options above."
  ++ "\nDo not mention the options or this instruction in your final answer."

/-- One enumerated option line `f"[{idx}] {response['content']}\n"`
(line 168). -/
def enumerationLine (idx : Nat) (c : Candidate) : String :=
  "[" ++ toString idx ++ "] " ++ c.content ++ "\n"

/-- `possible_responses_text` (lines 166-172): the header, then one
line per candidate built by `for idx, response in
enumerate(responses, 1)` accumulation, then the instruction. -/
def possibleResponsesText (responses : List Candidate) : String :=
  (responses.enum.foldl
    (fun acc ic => acc ++ enumerationLine (ic.1 + 1) ic.2)
    possibleResponsesHeader)
  ++ possibleResponsesInstruction

/-- `evaluation_messages` as sent to the arbitration call (lines
160-178): copy the conversation, pop trailing assistant turns, then
append the arbitration text as one new user turn. -/
def evaluationMessages (messages : List Message) (responses : List Candidate) :
    List Message :=
  let evaluation_messages := stripTrailingAssistant messages
  evaluation_messages ++ [{ role := "user", content := possibleResponsesText responses }]

/-- The body of one iteration of `get_top_k_responses` after
`requests.post` returns (lines 142-152): on any transport-level raise,
or on an unparseable body of a 200 response, the exception propagates;
on a 200 response the content is stripped and kept only if non-empty;
on a non-200 status the error is logged and the iteration skipped. -/
def candidateOfOutcome : CallOutcome → Except Unit (Option Candidate)
  | CallOutcome.transportError => Except.error ()
  | CallOutcome.response r =>
    if r.status = 200 then
      if r.jsonOk then
        if pyStrip r.content = "" then Except.ok none
        else Except.ok (some { content := pyStrip r.content })
      else Except.error ()
    else Except.ok none

/-- The `for i in range(k)` loop of `get_top_k_responses` (lines
124-152), recursing on the number of remaining iterations and threading
the call counter and the accumulated `responses` list. The per-call
random seed is drawn and passed through inside `options`; it does not
influence control flow and lives inside the `Endpoint` oracle. -/
def getTopKLoop (endpoint : Endpoint) (model : String) (messages : List Message) :
    Nat → Nat → List Candidate → Except Unit (List Candidate) × Nat
  | 0, n, responses => (Except.ok responses, n)
  | remaining + 1, n, responses =>
    let messages_for_generation := stripTrailingAssistant messages
    match candidateOfOutcome (endpoint n { model := model, messages := messages_for_generation }) with
    | Except.error e => (Except.error e, n + 1)
    | Except.ok none => getTopKLoop endpoint model messages remaining (n + 1) responses
    | Except.ok (some c) =>
      getTopKLoop endpoint model messages remaining (n + 1) (responses ++ [c])

/-- `get_top_k_responses` (lines 120-153). `temperature`, `max_tokens`
and `api_url` are pass-through values absorbed into the oracle. -/
def get_top_k_responses (model : String) (messages : List Message) (k : Nat)
    (endpoint : Endpoint) (n : Nat) : Except Unit (List Candidate) × Nat :=
  getTopKLoop endpoint model messages k n []

/-- `select_best_response_with_model` (lines 155-203): one arbitration
call on the stripped conversation plus the arbitration user turn.
Returns `(final_response, possible_responses_text)` on a 200 response,
`(None, None)` on any other status; a transport-level raise or an
unparseable 200 body propagates. -/
def select_best_response_with_model (model : String) (messages : List Message)
    (responses : List Candidate) (endpoint : Endpoint) (n : Nat) :
    Except Unit (Option String × Option String) × Nat :=
  let possible_responses_text := possibleResponsesText responses
  let evaluation_messages := evaluationMessages messages responses
  match endpoint n { model := model, messages := evaluation_messages } with
  | CallOutcome.transportError => (Except.error (), n + 1)
  | CallOutcome.response r =>
    if r.status = 200 then
      if r.jsonOk then
        (Except.ok (some (pyStrip r.content), some possible_responses_text), n + 1)
      else (Except.error (), n + 1)
    else (Except.ok (none, none), n + 1)

/-- `f"Please select a model to use with this pipeline {model_id}"`
(line 60). -/
def selectModelText (model_id : String) : String :=
  "Please select a model to use with this pipeline " ++ model_id

/-- The no-input reply (line 73). -/
def noUserMessageText : String := "No user message found."

/-- The fixed apology (line 112). -/
def apologyText : String := "I'm sorry, but I couldn't generate a response."

/-- The debug-mode reply format (line 108). -/
def debugOutput (inner_monologue best_response : String) : String :=
  "--- Inner Monologue ---\n" ++ inner_monologue
  ++ "\n\n--- Final Response ---\n" ++ best_response

/-- `pipe` from line 62 on, once the model check has passed:
`conversation_history = messages.copy()`, the last-user-message check,
the generation fan-out, the arbitration call, and output formatting
(lines 62-112). `if best_response:` is Python truthiness: both `None`
and the empty string fall to the apology branch. -/
def pipeBody (valves : Valves) (user_message : String) (model_id : String)
    (messages : List Message) (endpoint : Endpoint) (n : Nat) :
    Except Unit String × Nat :=
  let conversation_history := messages
  match get_last_user_message conversation_history with
  | none => (Except.ok noUserMessageText, n)
  | some _ =>
    match get_top_k_responses (pyOr valves.model model_id) conversation_history
        valves.k endpoint n with
    | (Except.error e, n1) => (Except.error e, n1)
    | (Except.ok top_k_responses, n1) =>
      match select_best_response_with_model (pyOr valves.model model_id)
          conversation_history top_k_responses endpoint n1 with
      | (Except.error e, n2) => (Except.error e, n2)
      | (Except.ok (best_response, inner_monologue), n2) =>
        match best_response with
        | some s =>
          if s = "" then (Except.ok apologyText, n2)
          else if valves.debug then
            (Except.ok (debugOutput (pyStrOfOpt inner_monologue) s), n2)
          else (Except.ok s, n2)
        | none => (Except.ok apologyText, n2)

/-- `pipe` (lines 56-112). `body` is unused by the source logic and is
omitted. -/
def pipe (valves : Valves) (user_message : String) (model_id : String)
    (messages : List Message) (endpoint : Endpoint) (n : Nat) :
    Except Unit String × Nat :=
  if valves.model = "" then (Except.ok (selectModelText model_id), n)
  else pipeBody valves user_message model_id messages endpoint n

/-! ### Derived notions used by the theorems -/

/-- A call outcome on which the Python code does not raise: an HTTP
response whose body parses as JSON whenever the status is 200 (on a
non-200 status the body is never parsed). -/
def wellFormed : CallOutcome → Bool
  | CallOutcome.transportError => false
  | CallOutcome.response r => if r.status = 200 then r.jsonOk else true

/-- The candidate one generation-call outcome contributes to the result
list: present exactly for HTTP 200 with non-empty stripped content. -/
def extractCandidate : CallOutcome → Option Candidate
  | CallOutcome.transportError => none
  | CallOutcome.response r =>
    if r.status = 200 ∧ ¬ pyStrip r.content = "" then
      some { content := pyStrip r.content }
    else none

/-- The request each generation call sends. -/
def genRequest (model : String) (messages : List Message) : Request :=
  { model := model, messages := stripTrailingAssistant messages }

/-- The request the arbitration call sends. -/
def arbRequest (model : String) (messages : List Message)
    (responses : List Candidate) : Request :=
  { model := model, messages := evaluationMessages messages responses }

/-- The candidates contributed by calls `n, …, n + k - 1`, in call
order. -/
def expectedCandidates (endpoint : Endpoint) (model : String)
    (messages : List Message) : Nat → Nat → List Candidate
  | 0, _ => []
  | j + 1, n =>
    (extractCandidate (endpoint n (genRequest model messages))).toList
      ++ expectedCandidates endpoint model messages j (n + 1)

theorem candidateOfOutcome_eq_of_wellFormed {o : CallOutcome}
    (h : wellFormed o = true) :
    candidateOfOutcome o = Except.ok (extractCandidate o) := by
  cases o with
  | transportError => simp [wellFormed] at h
  | response r =>
    simp only [wellFormed] at h
    by_cases h200 : r.status = 200
    · rw [if_pos h200] at h
      by_cases hempty : pyStrip r.content = "" <;>
        simp [candidateOfOutcome, extractCandidate, h200, h, hempty]
    · simp [candidateOfOutcome, extractCandidate, h200]

theorem getTopKLoop_eq_of_wellFormed (endpoint : Endpoint) (model : String)
    (messages : List Message) :
    ∀ (j n : Nat) (acc : List Candidate),
      (∀ i req, i < j → wellFormed (endpoint (n + i) req) = true) →
      getTopKLoop endpoint model messages j n acc =
        (Except.ok (acc ++ expectedCandidates endpoint model messages j n), n + j)
  | 0, n, acc, _ => by simp [getTopKLoop, expectedCandidates]
  | j + 1, n, acc, H => by
    have h0 : wellFormed (endpoint n (genRequest model messages)) = true := by
      have h := H 0 (genRequest model messages) (Nat.succ_pos j)
      simpa using h
    have Hrec : ∀ i req, i < j → wellFormed (endpoint (n + 1 + i) req) = true := by
      intro i req hi
      have h := H (i + 1) req (by omega)
      rwa [show n + (i + 1) = n + 1 + i by omega] at h
    have hrw := candidateOfOutcome_eq_of_wellFormed h0
    rw [show genRequest model messages
        = { model := model, messages := stripTrailingAssistant messages } from rfl] at hrw
    cases hE : extractCandidate (endpoint n
        { model := model, messages := stripTrailingAssistant messages }) with
    | none =>
      rw [hE] at hrw
      simp only [getTopKLoop, hrw]
      rw [getTopKLoop_eq_of_wellFormed endpoint model messages j (n + 1) acc Hrec]
      rw [expectedCandidates, genRequest, hE]
      simp [Nat.add_assoc, Nat.add_comm 1 j]
    | some c =>
      rw [hE] at hrw
      simp only [getTopKLoop, hrw]
      rw [getTopKLoop_eq_of_wellFormed endpoint model messages j (n + 1) (acc ++ [c]) Hrec]
      rw [expectedCandidates, genRequest, hE]
      simp [Nat.add_assoc, Nat.add_comm 1 j]

theorem get_top_k_responses_eq_of_wellFormed (model : String)
    (messages : List Message) (k : Nat) (endpoint : Endpoint) (n : Nat)
    (H : ∀ i req, i < k → wellFormed (endpoint (n + i) req) = true) :
    get_top_k_responses model messages k endpoint n =
      (Except.ok (expectedCandidates endpoint model messages k n), n + k) := by
  have h := getTopKLoop_eq_of_wellFormed endpoint model messages k n [] H
  simpa [get_top_k_responses] using h

theorem expectedCandidates_eq_filterMap (endpoint : Endpoint) (model : String)
    (messages : List Message) :
    ∀ (k n : Nat),
      expectedCandidates endpoint model messages k n =
        (List.range k).filterMap
          (fun i => extractCandidate (endpoint (n + i) (genRequest model messages)))
  | 0, n => by simp [expectedCandidates]
  | k + 1, n => by
    rw [expectedCandidates, List.range_succ_eq_map, List.filterMap_cons,
      List.filterMap_map,
      expectedCandidates_eq_filterMap endpoint model messages k (n + 1)]
    have hcongr : ((List.range k).filterMap
        fun i => extractCandidate (endpoint (n + 1 + i) (genRequest model messages)))
        = (List.range k).filterMap
          ((fun i => extractCandidate (endpoint (n + i) (genRequest model messages)))
            ∘ Nat.succ) := by
      apply List.filterMap_congr
      intro i _
      simp only [Function.comp]
      rw [show n + 1 + i = n + Nat.succ i by omega]
    rw [hcongr]
    cases hE : extractCandidate (endpoint (n + 0) (genRequest model messages)) with
    | none => simpa [hE] using by rw [show n + 0 = n from rfl] at hE; simp [hE]
    | some c => simpa [hE] using by rw [show n + 0 = n from rfl] at hE; simp [hE]

theorem select_best_eq_of_200 (model : String) (messages : List Message)
    (responses : List Candidate) (endpoint : Endpoint) (n : Nat)
    (r : HttpResponse)
    (hE : endpoint n (arbRequest model messages responses) = CallOutcome.response r)
    (h200 : r.status = 200) (hjson : r.jsonOk = true) :
    select_best_response_with_model model messages responses endpoint n =
      (Except.ok (some (pyStrip r.content), some (possibleResponsesText responses)),
        n + 1) := by
  rw [show arbRequest model messages responses
      = { model := model, messages := evaluationMessages messages responses } from rfl] at hE
  simp only [select_best_response_with_model, hE, h200, hjson, if_true, if_pos]

theorem select_best_eq_of_non200 (model : String) (messages : List Message)
    (responses : List Candidate) (endpoint : Endpoint) (n : Nat)
    (r : HttpResponse)
    (hE : endpoint n (arbRequest model messages responses) = CallOutcome.response r)
    (hst : r.status ≠ 200) :
    select_best_response_with_model model messages responses endpoint n =
      (Except.ok (none, none), n + 1) := by
  rw [show arbRequest model messages responses
      = { model := model, messages := evaluationMessages messages responses } from rfl] at hE
  simp only [select_best_response_with_model, hE, hst, if_neg, if_false]

/-! ### Theory of `stripTrailingAssistant` -/

/-- The role test as the Boolean predicate used on reversed lists. -/
def isAssistant (m : Message) : Bool := m.role == "assistant"

theorem stripTrailingAssistant_eq_dropWhile (ms : List Message) :
    stripTrailingAssistant ms = (ms.reverse.dropWhile isAssistant).reverse := by
  induction ms using List.reverseRecOn with
  | nil => simp [stripTrailingAssistant]
  | append_singleton l a ih =>
    rw [stripTrailingAssistant]
    have hne : l ++ [a] ≠ [] := by simp
    rw [dif_neg hne]
    have hlast : (l ++ [a]).getLast hne = a := by
      simp [List.getLast_append]
    rw [hlast, List.reverse_append]
    simp only [List.reverse_cons, List.reverse_nil, List.nil_append,
      List.singleton_append, List.dropWhile_cons]
    by_cases hrole : a.role = "assistant"
    · rw [if_pos hrole, List.dropLast_concat, ih]
      simp [isAssistant, hrole]
    · rw [if_neg hrole]
      have : isAssistant a = false := by
        simp [isAssistant, hrole]
      simp [this]

theorem dropWhile_idem (p : α → Bool) (l : List α) :
    (l.dropWhile p).dropWhile p = l.dropWhile p := by
  induction l with
  | nil => simp
  | cons a l ih =>
    by_cases h : p a = true
    · simp [List.dropWhile_cons, h, ih]
    · simp [List.dropWhile_cons, h]

theorem stripTrailingAssistant_idem (ms : List Message) :
    stripTrailingAssistant (stripTrailingAssistant ms) = stripTrailingAssistant ms := by
  rw [stripTrailingAssistant_eq_dropWhile, stripTrailingAssistant_eq_dropWhile,
    List.reverse_reverse, dropWhile_idem]

theorem stripTrailingAssistant_append_suffix (ms : List Message) :
    ∃ suffix, ms = stripTrailingAssistant ms ++ suffix
      ∧ suffix.all isAssistant = true := by
  refine ⟨(ms.reverse.takeWhile isAssistant).reverse, ?_, ?_⟩
  · rw [stripTrailingAssistant_eq_dropWhile, ← List.reverse_append,
      List.takeWhile_append_dropWhile, List.reverse_reverse]
  · rw [List.all_eq_true]
    intro x hx
    exact List.mem_takeWhile_imp (List.mem_reverse.mp hx)

theorem stripTrailingAssistant_getLast? (ms : List Message) :
    (stripTrailingAssistant ms).getLast?.all (fun m => !isAssistant m) = true := by
  rw [stripTrailingAssistant_eq_dropWhile, List.getLast?_reverse]
  have h := List.head?_dropWhile_not isAssistant ms.reverse
  cases hh : (ms.reverse.dropWhile isAssistant).head? with
  | none => simp
  | some x =>
    rw [hh] at h
    simp [h]

/-! ### Shape of the arbitration message -/

/-- Specification-side rendering of the option list: one line
`"[i] {text}"` per candidate, `i` counting up from `startIdx`. -/
def enumerationText (responses : List Candidate) (startIdx : Nat) : String :=
  match responses with
  | [] => ""
  | c :: rest => enumerationLine startIdx c ++ enumerationText rest (startIdx + 1)

theorem enumFoldl_eq_enumerationText :
    ∀ (l : List Candidate) (start : Nat) (init : String),
      (List.enumFrom start l).foldl
          (fun acc ic => acc ++ enumerationLine (ic.1 + 1) ic.2) init
        = init ++ enumerationText l (start + 1)
  | [], _, init => by simp [enumerationText]
  | c :: rest, start, init => by
    rw [List.enumFrom, List.foldl_cons,
      enumFoldl_eq_enumerationText rest (start + 1) (init ++ enumerationLine (start + 1) c),
      enumerationText, String.append_assoc]

theorem possibleResponsesText_eq (responses : List Candidate) :
    possibleResponsesText responses =
      possibleResponsesHeader ++ enumerationText responses 1
        ++ possibleResponsesInstruction := by
  rw [possibleResponsesText]
  rw [show responses.enum = List.enumFrom 0 responses from rfl]
  rw [enumFoldl_eq_enumerationText responses 0 possibleResponsesHeader]

/-- Number of sentence-terminating characters in a string. -/
def sentenceCount (s : String) : Nat :=
  (s.data.filter fun c => c == '.' || c == '!' || c == '?').length

/-! ### Composition lemmas for `pipe` -/

theorem pipe_eq_pipeBody (valves : Valves) (user_message model_id : String)
    (messages : List Message) (endpoint : Endpoint) (n : Nat)
    (hm : valves.model ≠ "") :
    pipe valves user_message model_id messages endpoint n =
      pipeBody valves user_message model_id messages endpoint n := by
  rw [pipe, if_neg hm]

theorem pipeBody_eq_of_wellFormed_gen (valves : Valves)
    (user_message model_id : String) (messages : List Message)
    (endpoint : Endpoint) (n : Nat) (m : Message)
    (hu : get_last_user_message messages = some m)
    (Hgen : ∀ i req, i < valves.k → wellFormed (endpoint (n + i) req) = true) :
    pipeBody valves user_message model_id messages endpoint n =
      (match select_best_response_with_model (pyOr valves.model model_id) messages
          (expectedCandidates endpoint (pyOr valves.model model_id) messages valves.k n)
          endpoint (n + valves.k) with
        | (Except.error e, n2) => (Except.error e, n2)
        | (Except.ok (best_response, inner_monologue), n2) =>
          match best_response with
          | some s =>
            if s = "" then (Except.ok apologyText, n2)
            else if valves.debug then
              (Except.ok (debugOutput (pyStrOfOpt inner_monologue) s), n2)
            else (Except.ok s, n2)
          | none => (Except.ok apologyText, n2)) := by
  rw [pipeBody]
  simp only [hu,
    get_top_k_responses_eq_of_wellFormed (pyOr valves.model model_id) messages
      valves.k endpoint n Hgen]

/-! ### Store-instrumented embedding

Python lists are heap cells passed by reference, and `list.copy()`
allocates a fresh cell.  To state the frame property "`pipe` never
mutates the caller's `messages` list", this second embedding makes the
cells explicit: a `Store` holds every message list reachable during one
invocation, functions receive list *references* (cell indices), a
`.copy()` is an `alloc`, and the in-place `pop`/`append` steps are
`write`s to the owning cell. -/

structure Store where
  cells : List (List Message)
deriving Repr

def Store.read (s : Store) (r : Nat) : List Message := s.cells.getD r []

def Store.alloc (s : Store) (v : List Message) : Store × Nat :=
  ({ cells := s.cells ++ [v] }, s.cells.length)

def Store.write (s : Store) (r : Nat) (v : List Message) : Store :=
  { cells := s.cells.set r v }

/-- `get_top_k_responses` on the store: each iteration allocates
`messages_for_generation = messages.copy()`, pops its trailing
assistant turns in place (one batched write of the loop's fixpoint),
and sends the cell's content. -/
def getTopKLoopSt (endpoint : Endpoint) (model : String) (msgsRef : Nat) :
    Nat → Store → Nat → List Candidate →
      Store × Except Unit (List Candidate) × Nat
  | 0, s, n, responses => (s, Except.ok responses, n)
  | remaining + 1, s, n, responses =>
    let als := s.alloc (s.read msgsRef)
    let s1 := als.1
    let genRef := als.2
    let s2 := s1.write genRef (stripTrailingAssistant (s1.read genRef))
    match candidateOfOutcome
        (endpoint n { model := model, messages := s2.read genRef }) with
    | Except.error e => (s2, Except.error e, n + 1)
    | Except.ok none =>
      getTopKLoopSt endpoint model msgsRef remaining s2 (n + 1) responses
    | Except.ok (some c) =>
      getTopKLoopSt endpoint model msgsRef remaining s2 (n + 1) (responses ++ [c])

/-- `select_best_response_with_model` on the store:
`evaluation_messages = messages.copy()` allocates, the while-pop and the
`.append(...)` of the arbitration user turn write the fresh cell, and
the cell's content is sent. -/
def select_best_response_with_modelSt (endpoint : Endpoint) (model : String)
    (msgsRef : Nat) (responses : List Candidate) (s : Store) (n : Nat) :
    Store × Except Unit (Option String × Option String) × Nat :=
  let als := s.alloc (s.read msgsRef)
  let s1 := als.1
  let evalRef := als.2
  let s2 := s1.write evalRef (stripTrailingAssistant (s1.read evalRef))
  let possible_responses_text := possibleResponsesText responses
  let s3 := s2.write evalRef
    (s2.read evalRef ++ [{ role := "user", content := possible_responses_text }])
  (s3,
    match endpoint n { model := model, messages := s3.read evalRef } with
    | CallOutcome.transportError => (Except.error (), n + 1)
    | CallOutcome.response r =>
      if r.status = 200 then
        if r.jsonOk then
          (Except.ok (some (pyStrip r.content), some possible_responses_text), n + 1)
        else (Except.error (), n + 1)
      else (Except.ok (none, none), n + 1))

/-- `pipe` on the store: the caller's list lives in cell `callerRef`;
`conversation_history = messages.copy()` allocates, and everything else
works on the copy's reference. -/
def pipeSt (valves : Valves) (user_message model_id : String) (callerRef : Nat)
    (endpoint : Endpoint) (s : Store) (n : Nat) :
    Store × Except Unit String × Nat :=
  if valves.model = "" then (s, Except.ok (selectModelText model_id), n)
  else
    let als := s.alloc (s.read callerRef)
    let s1 := als.1
    let histRef := als.2
    match get_last_user_message (s1.read histRef) with
    | none => (s1, Except.ok noUserMessageText, n)
    | some _ =>
      match getTopKLoopSt endpoint (pyOr valves.model model_id) histRef
          valves.k s1 n [] with
      | (s2, Except.error e, n1) => (s2, Except.error e, n1)
      | (s2, Except.ok top_k_responses, n1) =>
        match select_best_response_with_modelSt endpoint
            (pyOr valves.model model_id) histRef top_k_responses s2 n1 with
        | (s3, Except.error e, n2) => (s3, Except.error e, n2)
        | (s3, Except.ok (best_response, inner_monologue), n2) =>
          (s3,
            (match best_response with
             | some sb =>
               if sb = "" then Except.ok apologyText
               else if valves.debug then
                 Except.ok (debugOutput (pyStrOfOpt inner_monologue) sb)
               else Except.ok sb
             | none => Except.ok apologyText),
            n2)

/-! ### Frame lemmas: every write targets a freshly allocated cell -/

theorem Store.read_alloc_of_lt (s : Store) (v : List Message) {r : Nat}
    (h : r < s.cells.length) : (s.alloc v).1.read r = s.read r := by
  simp [Store.alloc, Store.read, List.getD_eq_getElem?_getD,
    List.getElem?_append_left h]

theorem Store.read_write_of_ne (s : Store) {w r : Nat} (v : List Message)
    (h : w ≠ r) : (s.write w v).read r = s.read r := by
  simp [Store.write, Store.read, List.getD_eq_getElem?_getD,
    List.getElem?_set_ne h]

theorem Store.allocWrite_read_of_lt (s : Store) (v w : List Message) {r : Nat}
    (h : r < s.cells.length) :
    ((s.alloc v).1.write (s.alloc v).2 w).read r = s.read r := by
  rw [Store.read_write_of_ne _ _ (by exact Nat.ne_of_gt h),
    Store.read_alloc_of_lt _ _ h]

theorem Store.allocWrite_length (s : Store) (v w : List Message) :
    ((s.alloc v).1.write (s.alloc v).2 w).cells.length = s.cells.length + 1 := by
  simp [Store.alloc, Store.write]

theorem getTopKLoopSt_frame (endpoint : Endpoint) (model : String)
    (msgsRef : Nat) :
    ∀ (remaining : Nat) (s : Store) (n : Nat) (responses : List Candidate),
      s.cells.length
          ≤ (getTopKLoopSt endpoint model msgsRef remaining s n responses).1.cells.length
        ∧ ∀ r, r < s.cells.length →
          (getTopKLoopSt endpoint model msgsRef remaining s n responses).1.read r
            = s.read r
  | 0, s, n, responses => by simp [getTopKLoopSt]
  | remaining + 1, s, n, responses => by
    simp only [getTopKLoopSt]
    cases hE : candidateOfOutcome (endpoint n
        { model := model,
          messages := ((s.alloc (s.read msgsRef)).1.write (s.alloc (s.read msgsRef)).2
            (stripTrailingAssistant
              ((s.alloc (s.read msgsRef)).1.read (s.alloc (s.read msgsRef)).2))).read
                (s.alloc (s.read msgsRef)).2 }) with
    | error e =>
      constructor
      · rw [Store.allocWrite_length]
        omega
      · intro r hr
        exact Store.allocWrite_read_of_lt s _ _ hr
    | ok oc =>
      have hlen := Store.allocWrite_length s (s.read msgsRef)
        (stripTrailingAssistant
          ((s.alloc (s.read msgsRef)).1.read (s.alloc (s.read msgsRef)).2))
      cases oc with
      | none =>
        have ih := getTopKLoopSt_frame endpoint model msgsRef remaining
          ((s.alloc (s.read msgsRef)).1.write (s.alloc (s.read msgsRef)).2
            (stripTrailingAssistant
              ((s.alloc (s.read msgsRef)).1.read (s.alloc (s.read msgsRef)).2)))
          (n + 1) responses
        constructor
        · calc s.cells.length ≤ s.cells.length + 1 := Nat.le_succ _
            _ = _ := hlen.symm
            _ ≤ _ := ih.1
        · intro r hr
          rw [ih.2 r (by rw [hlen]; omega), Store.allocWrite_read_of_lt s _ _ hr]
      | some c =>
        have ih := getTopKLoopSt_frame endpoint model msgsRef remaining
          ((s.alloc (s.read msgsRef)).1.write (s.alloc (s.read msgsRef)).2
            (stripTrailingAssistant
              ((s.alloc (s.read msgsRef)).1.read (s.alloc (s.read msgsRef)).2)))
          (n + 1) (responses ++ [c])
        constructor
        · calc s.cells.length ≤ s.cells.length + 1 := Nat.le_succ _
            _ = _ := hlen.symm
            _ ≤ _ := ih.1
        · intro r hr
          rw [ih.2 r (by rw [hlen]; omega), Store.allocWrite_read_of_lt s _ _ hr]

theorem select_bestSt_frame (endpoint : Endpoint) (model : String)
    (msgsRef : Nat) (responses : List Candidate) (s : Store) (n : Nat) :
    s.cells.length
        ≤ (select_best_response_with_modelSt endpoint model msgsRef responses s n).1.cells.length
      ∧ ∀ r, r < s.cells.length →
        (select_best_response_with_modelSt endpoint model msgsRef responses s n).1.read r
          = s.read r := by
  simp only [select_best_response_with_modelSt]
  constructor
  · simp [Store.alloc, Store.write]
  · intro r hr
    rw [Store.read_write_of_ne _ _ (by
        simp only [Store.alloc, Store.write]
        exact Nat.ne_of_gt hr),
      Store.allocWrite_read_of_lt s _ _ hr]

theorem pipeSt_frame (valves : Valves) (user_message model_id : String)
    (callerRef : Nat) (endpoint : Endpoint) (s : Store) (n : Nat) :
    ∀ r, r < s.cells.length →
      (pipeSt valves user_message model_id callerRef endpoint s n).1.read r
        = s.read r := by
  intro r hr
  by_cases hm : valves.model = ""
  · simp [pipeSt, hm]
  · simp only [pipeSt, if_neg hm]
    have hlen1 : ((s.alloc (s.read callerRef)).1).cells.length = s.cells.length + 1 := by
      simp [Store.alloc]
    split
    · exact Store.read_alloc_of_lt s _ hr
    · split
      · next s2 e n1 heq =>
        have hloop := getTopKLoopSt_frame endpoint (pyOr valves.model model_id)
          (s.alloc (s.read callerRef)).2 valves.k (s.alloc (s.read callerRef)).1 n []
        rw [heq] at hloop
        simp only at hloop
        rw [hloop.2 r (by omega), Store.read_alloc_of_lt s _ hr]
      · next s2 top_k_responses n1 heq =>
        have hloop := getTopKLoopSt_frame endpoint (pyOr valves.model model_id)
          (s.alloc (s.read callerRef)).2 valves.k (s.alloc (s.read callerRef)).1 n []
        rw [heq] at hloop
        simp only at hloop
        have hr2 : r < s2.cells.length := by omega
        have hread2 : s2.read r = s.read r := by
          rw [hloop.2 r (by omega), Store.read_alloc_of_lt s _ hr]
        split
        · next s3 e n2 heq2 =>
          have hsel := select_bestSt_frame endpoint (pyOr valves.model model_id)
            (s.alloc (s.read callerRef)).2 top_k_responses s2 n1
          rw [heq2] at hsel
          simp only at hsel
          rw [hsel.2 r hr2, hread2]
        · next s3 best_response inner_monologue n2 heq2 =>
          have hsel := select_bestSt_frame endpoint (pyOr valves.model model_id)
            (s.alloc (s.read callerRef)).2 top_k_responses s2 n1
          rw [heq2] at hsel
          simp only at hsel
          rw [hsel.2 r hr2, hread2]

theorem wellFormed_response {o : CallOutcome} (h : wellFormed o = true) :
    ∃ r, o = CallOutcome.response r ∧ (r.status = 200 → r.jsonOk = true) := by
  cases o with
  | transportError => simp [wellFormed] at h
  | response r =>
    refine ⟨r, rfl, fun h200 => ?_⟩
    simpa [wellFormed, h200] using h

/-! ## The claims -/

/-- Claim C1, counterexample: the source wraps no call in `try`/`except`,
so a transport-level failure of the very first generation call
(`requests.post` raising) propagates out of `pipe` as an exception
(`Except.error`), after one outbound call — the claim that every failure
path, including transport-level failures, ends in a plain returned
string is false. -/
theorem pipe_transport_failure_escapes :
    pipe { model := "m", k := 1, debug := true } "hi" "id"
        [{ role := "user", content := "hi" }]
        (fun _ _ => CallOutcome.transportError) 0
      = (Except.error (), 1) := rfl

/-- Claim C1, amended: provided every outbound call completes with an
HTTP response whose body parses as JSON whenever the status is 200 (no
transport-level exception, no malformed 200 body), every invocation of
`pipe` returns a plain string: configuration errors, missing user
messages, non-success statuses and empty text fields all end in
`Except.ok`. -/
theorem pipe_returns_string_of_wellformed_endpoint (valves : Valves)
    (user_message model_id : String) (messages : List Message)
    (endpoint : Endpoint) (n : Nat)
    (H : ∀ i req, wellFormed (endpoint i req) = true) :
    ∃ out n2, pipe valves user_message model_id messages endpoint n
      = (Except.ok out, n2) := by
  by_cases hm : valves.model = ""
  · exact ⟨selectModelText model_id, n, by simp [pipe, hm]⟩
  · cases hu : get_last_user_message messages with
    | none =>
      refine ⟨noUserMessageText, n, ?_⟩
      rw [pipe_eq_pipeBody _ _ _ _ _ _ hm, pipeBody]
      simp [hu]
    | some m =>
      have Hgen : ∀ i req, i < valves.k → wellFormed (endpoint (n + i) req) = true :=
        fun i req _ => H (n + i) req
      obtain ⟨r, hr, himp⟩ := wellFormed_response
        (H (n + valves.k) (arbRequest (pyOr valves.model model_id) messages
          (expectedCandidates endpoint (pyOr valves.model model_id) messages valves.k n)))
      by_cases h200 : r.status = 200
      · by_cases hempty : pyStrip r.content = ""
        · refine ⟨apologyText, n + valves.k + 1, ?_⟩
          rw [pipe_eq_pipeBody _ _ _ _ _ _ hm,
            pipeBody_eq_of_wellFormed_gen valves user_message model_id messages
              endpoint n m hu Hgen,
            select_best_eq_of_200 _ _ _ _ _ r hr h200 (himp h200)]
          simp [hempty]
        · by_cases hdebug : valves.debug
          · refine ⟨debugOutput (possibleResponsesText
                (expectedCandidates endpoint (pyOr valves.model model_id) messages
                  valves.k n)) (pyStrip r.content), n + valves.k + 1, ?_⟩
            rw [pipe_eq_pipeBody _ _ _ _ _ _ hm,
              pipeBody_eq_of_wellFormed_gen valves user_message model_id messages
                endpoint n m hu Hgen,
              select_best_eq_of_200 _ _ _ _ _ r hr h200 (himp h200)]
            simp [hempty, hdebug, pyStrOfOpt]
          · refine ⟨pyStrip r.content, n + valves.k + 1, ?_⟩
            rw [pipe_eq_pipeBody _ _ _ _ _ _ hm,
              pipeBody_eq_of_wellFormed_gen valves user_message model_id messages
                endpoint n m hu Hgen,
              select_best_eq_of_200 _ _ _ _ _ r hr h200 (himp h200)]
            simp [hempty, hdebug]
      · refine ⟨apologyText, n + valves.k + 1, ?_⟩
        rw [pipe_eq_pipeBody _ _ _ _ _ _ hm,
          pipeBody_eq_of_wellFormed_gen valves user_message model_id messages
            endpoint n m hu Hgen,
          select_best_eq_of_non200 _ _ _ _ _ r hr h200]

/-- Witness for C1's amended theorem at a concrete stub endpoint. -/
theorem pipe_returns_string_of_wellformed_endpoint_witness :
    ∃ out n2, pipe { model := "m", k := 2, debug := true } "hi" "id"
        [{ role := "user", content := "hi" }]
        (fun _ _ => CallOutcome.response
          { status := 200, jsonOk := true, content := "ok", text := "" }) 0
      = (Except.ok out, n2) :=
  pipe_returns_string_of_wellformed_endpoint _ _ _ _ _ _ (fun _ _ => rfl)

/-- Claim C2, counterexample: line 59 tests only `self.valves.model`;
with an empty configured model and the override `model_id = "llama3"`
supplied, `pipe` still returns the configuration-error string (after
zero outbound calls), so "if a model identifier is supplied (configured
or as the model_id override) the request is not rejected on this
ground" is false. -/
theorem pipe_rejects_despite_model_override :
    pipe { model := "", k := 5, debug := true } "what is 2+2" "llama3"
        [{ role := "user", content := "what is 2+2" }]
        (fun _ _ => CallOutcome.response
          { status := 200, jsonOk := true, content := "4", text := "" }) 0
      = (Except.ok "Please select a model to use with this pipeline llama3", 0) := rfl

/-- Claim C2, amended: `pipe` rejects exactly when the *configured*
model is empty, regardless of the `model_id` override: with
`valves.model = ""` it returns the configuration-error string and
issues zero outbound calls (the counter is unchanged), and with a
non-empty configured model it is never rejected on this ground but
proceeds to the pipeline body. -/
theorem pipe_rejection_iff_configured_model_empty (valves : Valves)
    (user_message model_id : String) (messages : List Message)
    (endpoint : Endpoint) (n : Nat) :
    (valves.model = "" →
      pipe valves user_message model_id messages endpoint n
        = (Except.ok (selectModelText model_id), n))
    ∧ (valves.model ≠ "" →
      pipe valves user_message model_id messages endpoint n
        = pipeBody valves user_message model_id messages endpoint n) := by
  constructor
  · intro hm
    simp [pipe, hm]
  · intro hm
    exact pipe_eq_pipeBody _ _ _ _ _ _ hm

/-- Witness for C2's amended theorem: both sides at concrete inputs. -/
theorem pipe_rejection_iff_configured_model_empty_witness :
    pipe { model := "", k := 5, debug := true } "hi" "llama3"
        [{ role := "user", content := "hi" }]
        (fun _ _ => CallOutcome.transportError) 0
      = (Except.ok (selectModelText "llama3"), 0)
    ∧ pipe { model := "m", k := 5, debug := true } "hi" "llama3"
        [{ role := "user", content := "hi" }]
        (fun _ _ => CallOutcome.transportError) 0
      = pipeBody { model := "m", k := 5, debug := true } "hi" "llama3"
        [{ role := "user", content := "hi" }]
        (fun _ _ => CallOutcome.transportError) 0 :=
  ⟨(pipe_rejection_iff_configured_model_empty _ _ _ _ _ _).1 rfl,
   (pipe_rejection_iff_configured_model_empty _ _ _ _ _ _).2 (by decide)⟩

/-- Claim C3, counterexample: with `k = 2` and a transport failure on
the first call, the loop body raises out of `get_top_k_responses` after
one request — the generator neither performs exactly `k` requests nor
skips the failed request without aborting the loop, so the claim (whose
"failed" requests include transport failures, per its sources) is false
as stated. -/
theorem getTopK_transport_failure_aborts_loop :
    get_top_k_responses "m" [{ role := "user", content := "q" }] 2
        (fun _ _ => CallOutcome.transportError) 0
      = (Except.error (), 1) := rfl

/-- Claim C3, amended: provided every one of the `k` requests completes
with an HTTP response whose body parses whenever the status is 200, the
generator performs exactly `k` requests (counter `n` to `n + k`), and
the result is `Except.ok` of the list containing, in request order, one
candidate per request that returned status 200 with non-empty stripped
content — requests with non-200 status or empty text contribute
nothing, without retry and without aborting the loop — and its length
is at most `k`.  (A transport-level failure or malformed 200-body
instead raises, aborting the loop.) -/
theorem getTopK_candidates_spec (model : String) (messages : List Message)
    (k : Nat) (endpoint : Endpoint) (n : Nat)
    (H : ∀ i req, i < k → wellFormed (endpoint (n + i) req) = true) :
    get_top_k_responses model messages k endpoint n
      = (Except.ok ((List.range k).filterMap
          (fun i => extractCandidate (endpoint (n + i) (genRequest model messages)))),
        n + k)
    ∧ ((List.range k).filterMap
        (fun i => extractCandidate (endpoint (n + i) (genRequest model messages)))).length
      ≤ k := by
  constructor
  · rw [get_top_k_responses_eq_of_wellFormed model messages k endpoint n H,
      expectedCandidates_eq_filterMap]
  · calc ((List.range k).filterMap
        (fun i => extractCandidate (endpoint (n + i) (genRequest model messages)))).length
        ≤ (List.range k).length := List.length_filterMap_le _ _
      _ = k := List.length_range k

/-- Witness for C3's amended theorem: the spec's own example — a stub
failing on iterations 2 and 4 of 5 yields exactly the candidates of
iterations 1, 3, 5 in that order. -/
theorem getTopK_candidates_spec_witness :
    get_top_k_responses "m" [{ role := "user", content := "q" }] 5
        (fun i _ => if i = 1 ∨ i = 3 then
          CallOutcome.response { status := 500, jsonOk := false, content := "", text := "err" }
        else CallOutcome.response
          ⟨200, true, (if i = 0 then "a" else if i = 2 then "c" else "e"), ""⟩) 0
      = (Except.ok [{ content := "a" }, { content := "c" }, { content := "e" }], 5) := by
  have h := getTopK_candidates_spec "m" [{ role := "user", content := "q" }] 5
    (fun i _ => if i = 1 ∨ i = 3 then
      CallOutcome.response { status := 500, jsonOk := false, content := "", text := "err" }
    else CallOutcome.response
      ⟨200, true, (if i = 0 then "a" else if i = 2 then "c" else "e"), ""⟩) 0
    (by
      intro i req _
      by_cases hi : i = 1 ∨ i = 3 <;> simp [wellFormed, hi])
  rw [h.1]
  rfl

/-- Claim C4, counterexample: at the concrete candidate list `["4"]`,
the arbitration message is the header, the enumeration `"[1] 4\n"`, and
then an instruction block containing *two* sentence-terminating periods
(one per instruction sentence), while header and enumeration contain
none — so "exactly one instruction sentence" is false. -/
theorem arbitration_instruction_not_one_sentence :
    possibleResponsesText [{ content := "4" }]
        = possibleResponsesHeader ++ enumerationLine 1 { content := "4" }
          ++ possibleResponsesInstruction
      ∧ sentenceCount possibleResponsesInstruction = 2
      ∧ sentenceCount (possibleResponsesHeader ++ enumerationLine 1 { content := "4" }) = 0 :=
  ⟨rfl, rfl, rfl⟩

/-- Claim C4, amended: the arbitration message enumerates every
candidate as `"[i] {text}"`, 1-indexed in generation order, between the
fixed header line and a fixed *two*-sentence instruction (one sentence
asking for the best response to the last user message based on the
options, one forbidding mention of the options or the instruction), and
it is appended as exactly one new user turn onto the
trailing-assistant-stripped conversation. -/
theorem arbitration_message_spec (messages : List Message)
    (responses : List Candidate) :
    possibleResponsesText responses
        = possibleResponsesHeader ++ enumerationText responses 1
          ++ possibleResponsesInstruction
      ∧ sentenceCount possibleResponsesInstruction = 2
      ∧ evaluationMessages messages responses
        = stripTrailingAssistant messages
          ++ [{ role := "user", content := possibleResponsesText responses }] :=
  ⟨possibleResponsesText_eq responses, rfl, rfl⟩

/-- Claim C5, counterexample: with an empty candidate set the Selector
does *not* special-case and does not report "no candidate available":
it still issues the arbitration call (counter 0 → 1) with an option-less
arbitration message and returns the model's made-up text as the final
answer. -/
theorem selector_empty_candidates_still_calls_model :
    select_best_response_with_model "m" [{ role := "user", content := "q" }] []
        (fun _ _ => CallOutcome.response
          { status := 200, jsonOk := true, content := "made-up answer", text := "" }) 0
      = (Except.ok (some "made-up answer", some (possibleResponsesText [])), 1) := rfl

/-- Claim C5, amended: an empty candidate set is handled without
exception, but it is not special-cased: the Selector builds the
arbitration message with an empty option list (header and instruction
only), issues the one arbitration call anyway, and returns that call's
text as the final answer. -/
theorem selector_empty_candidates_spec (model : String)
    (messages : List Message) (endpoint : Endpoint) (n : Nat)
    (r : HttpResponse)
    (hE : endpoint n (arbRequest model messages []) = CallOutcome.response r)
    (h200 : r.status = 200) (hjson : r.jsonOk = true) :
    select_best_response_with_model model messages [] endpoint n
        = (Except.ok (some (pyStrip r.content), some (possibleResponsesText [])), n + 1)
      ∧ possibleResponsesText []
        = possibleResponsesHeader ++ possibleResponsesInstruction :=
  ⟨select_best_eq_of_200 _ _ _ _ _ r hE h200 hjson, rfl⟩

/-- Witness for C5's amended theorem at a concrete stub endpoint. -/
theorem selector_empty_candidates_spec_witness :
    select_best_response_with_model "m" [{ role := "user", content := "q" }] []
        (fun _ _ => CallOutcome.response
          { status := 200, jsonOk := true, content := "hello", text := "" }) 0
      = (Except.ok (some "hello", some (possibleResponsesText [])), 1) := by
  have h := selector_empty_candidates_spec "m" [{ role := "user", content := "q" }]
    (fun _ _ => CallOutcome.response
      { status := 200, jsonOk := true, content := "hello", text := "" }) 0
    { status := 200, jsonOk := true, content := "hello", text := "" } rfl rfl rfl
  rw [h.1]
  rfl

/-- Claim C6: if the single arbitration call returns a non-success HTTP
status, the Selector reports failure (`(None, None)`) without retrying —
the call counter moves from `n + k` to exactly `n + k + 1`, one
arbitration call — and `pipe` then returns the fixed apology string
rather than crashing or falling back to another strategy. -/
theorem pipe_apology_on_arbitration_failure (valves : Valves)
    (user_message model_id : String) (messages : List Message)
    (endpoint : Endpoint) (n : Nat) (m : Message) (r : HttpResponse)
    (hm : valves.model ≠ "")
    (hu : get_last_user_message messages = some m)
    (Hgen : ∀ i req, i < valves.k → wellFormed (endpoint (n + i) req) = true)
    (harb : ∀ req, endpoint (n + valves.k) req = CallOutcome.response r)
    (hst : r.status ≠ 200) :
    pipe valves user_message model_id messages endpoint n
      = (Except.ok apologyText, n + valves.k + 1) := by
  rw [pipe_eq_pipeBody _ _ _ _ _ _ hm,
    pipeBody_eq_of_wellFormed_gen valves user_message model_id messages
      endpoint n m hu Hgen,
    select_best_eq_of_non200 _ _ _ _ _ r (harb _) hst]

/-- Witness for C6 at a concrete stub: two generations succeed, the
arbitration call returns 503, and `pipe` answers with the apology after
exactly 2 + 1 calls. -/
theorem pipe_apology_on_arbitration_failure_witness :
    pipe { model := "m", k := 2, debug := true } "hi" "id"
        [{ role := "user", content := "hi" }]
        (fun i _ => if i < 2 then
          CallOutcome.response { status := 200, jsonOk := true, content := "ok", text := "" }
        else CallOutcome.response { status := 503, jsonOk := false, content := "", text := "down" }) 0
      = (Except.ok apologyText, 3) := by
  exact pipe_apology_on_arbitration_failure _ _ _ _ _ _
    { role := "user", content := "hi" } ⟨503, false, "", "down"⟩
    (by decide) rfl
    (by intro i req hi
        have hi2 : i < 2 := hi
        show wellFormed (if 0 + i < 2 then _ else _) = true
        rw [if_pos (by omega)]
        rfl)
    (fun req => rfl) (by decide)

/-- Claim C7: popping trailing assistant turns yields the input with
zero or more trailing assistant turns removed and nothing else changed
(the input is the result followed by an all-assistant suffix), the
result never ends in an assistant turn unless it is empty, and the
operation is idempotent. -/
theorem stripTrailingAssistant_spec (ms : List Message) :
    (∃ suffix, ms = stripTrailingAssistant ms ++ suffix
      ∧ suffix.all isAssistant = true)
    ∧ (stripTrailingAssistant ms).getLast?.all (fun m => !isAssistant m) = true
    ∧ stripTrailingAssistant (stripTrailingAssistant ms) = stripTrailingAssistant ms :=
  ⟨stripTrailingAssistant_append_suffix ms, stripTrailingAssistant_getLast? ms,
    stripTrailingAssistant_idem ms⟩

/-- Claim C8: with a configured model and a conversation containing no
message with role `user`, `pipe` returns `"No user message found."` and
issues zero outbound calls (the counter is unchanged). -/
theorem pipe_no_user_message (valves : Valves)
    (user_message model_id : String) (messages : List Message)
    (endpoint : Endpoint) (n : Nat)
    (hm : valves.model ≠ "")
    (hnou : messages.all (fun m => m.role != "user") = true) :
    pipe valves user_message model_id messages endpoint n
      = (Except.ok noUserMessageText, n) := by
  have hnone : get_last_user_message messages = none := by
    rw [get_last_user_message, List.find?_eq_none]
    intro x hx
    have hr := List.all_eq_true.mp hnou x (List.mem_reverse.mp hx)
    simpa using hr
  rw [pipe_eq_pipeBody _ _ _ _ _ _ hm, pipeBody]
  simp [hnone]

/-- Witness for C8: a conversation holding only assistant and system
turns is answered with the no-input string after zero calls. -/
theorem pipe_no_user_message_witness :
    pipe { model := "m", k := 5, debug := true } "" "id"
        [{ role := "system", content := "be nice" },
         { role := "assistant", content := "hello" }]
        (fun _ _ => CallOutcome.transportError) 7
      = (Except.ok noUserMessageText, 7) :=
  pipe_no_user_message _ _ _ _ _ _ (by decide) (by decide)

/-- Claim C9: when the arbitration call succeeds with non-empty
stripped text, `pipe` returns — after exactly `k + 1` calls — the debug
format `--- Inner Monologue ---` + the exact arbitration message (which
lists each candidate) + `--- Final Response ---` + the final text when
the debug flag is set, and the final text alone when it is not. -/
theorem pipe_success_output_spec (valves : Valves)
    (user_message model_id : String) (messages : List Message)
    (endpoint : Endpoint) (n : Nat) (m : Message) (r : HttpResponse)
    (tops : List Candidate)
    (hm : valves.model ≠ "")
    (hu : get_last_user_message messages = some m)
    (Hgen : ∀ i req, i < valves.k → wellFormed (endpoint (n + i) req) = true)
    (htops : tops = expectedCandidates endpoint (pyOr valves.model model_id)
      messages valves.k n)
    (harb : ∀ req, endpoint (n + valves.k) req = CallOutcome.response r)
    (h200 : r.status = 200) (hjson : r.jsonOk = true)
    (hne : pyStrip r.content ≠ "") :
    pipe valves user_message model_id messages endpoint n
      = (Except.ok (if valves.debug
          then debugOutput (possibleResponsesText tops) (pyStrip r.content)
          else pyStrip r.content), n + valves.k + 1) := by
  subst htops
  rw [pipe_eq_pipeBody _ _ _ _ _ _ hm,
    pipeBody_eq_of_wellFormed_gen valves user_message model_id messages
      endpoint n m hu Hgen,
    select_best_eq_of_200 _ _ _ _ _ r (harb _) h200 hjson]
  simp only [pyStrOfOpt]
  rw [if_neg hne]
  by_cases hdebug : valves.debug <;> simp [hdebug]

/-- Witness for C9, covering both debug settings at a concrete stub. -/
theorem pipe_success_output_spec_witness :
    pipe { model := "m", k := 1, debug := true } "hi" "id"
        [{ role := "user", content := "hi" }]
        (fun i _ => CallOutcome.response
          ⟨200, true, (if i = 0 then "4" else "final"), ""⟩) 0
      = (Except.ok (debugOutput (possibleResponsesText [{ content := "4" }]) "final"), 2)
    ∧ pipe { model := "m", k := 1, debug := false } "hi" "id"
        [{ role := "user", content := "hi" }]
        (fun i _ => CallOutcome.response
          ⟨200, true, (if i = 0 then "4" else "final"), ""⟩) 0
      = (Except.ok "final", 2) := by
  constructor
  · have h := pipe_success_output_spec { model := "m", k := 1, debug := true }
      "hi" "id" [{ role := "user", content := "hi" }]
      (fun i _ => CallOutcome.response
        ⟨200, true, (if i = 0 then "4" else "final"), ""⟩) 0
      { role := "user", content := "hi" } ⟨200, true, "final", ""⟩
      [{ content := "4" }]
      (by decide) rfl
      (by intro i req hi
          have hi1 : i < 1 := hi
          rw [show i = 0 by omega]
          rfl)
      rfl (fun req => rfl) rfl rfl (by decide)
    rw [h]
    rfl
  · have h := pipe_success_output_spec { model := "m", k := 1, debug := false }
      "hi" "id" [{ role := "user", content := "hi" }]
      (fun i _ => CallOutcome.response
        ⟨200, true, (if i = 0 then "4" else "final"), ""⟩) 0
      { role := "user", content := "hi" } ⟨200, true, "final", ""⟩
      [{ content := "4" }]
      (by decide) rfl
      (by intro i req hi
          have hi1 : i < 1 := hi
          rw [show i = 0 by omega]
          rfl)
      rfl (fun req => rfl) rfl rfl (by decide)
    rw [h]
    rfl

/-- Claim C10: `pipe` never mutates the caller's `messages` list.  In
the store-instrumented embedding, with the caller's list as the only
pre-existing heap cell, the cell still holds exactly the same list
(same length, order and elements) after any invocation of `pipeSt`:
every internal modification targets a freshly allocated copy. -/
theorem pipe_never_mutates_caller_messages (valves : Valves)
    (user_message model_id : String) (msgs : List Message)
    (endpoint : Endpoint) (n : Nat) :
    (pipeSt valves user_message model_id 0 endpoint { cells := [msgs] } n).1.read 0
      = msgs := by
  rw [pipeSt_frame valves user_message model_id 0 endpoint { cells := [msgs] } n 0
    (by simp)]
  rfl

end CoTPipe
